import Mathlib

/-!
A shallow embedding of the Sangria folding-scheme core
(`src/errors.rs`, `src/relaxed_plonk.rs`, `src/folding_scheme.rs`) and proofs
about it.  Field elements, commitments and Poseidon constants are kept as type
parameters `F`, `C` (slack-scheme commitments), `W` (witness-scheme
commitments) and `P`, matching the Rust generics `F : PrimeField` and
`Comm : FoldingCommitmentConfig<F>`.  Rust `Result` values are modelled by
`RResult`, which distinguishes `Ok`, `Err` and a panic (an out-of-bounds
`Vec` index) as a third outcome.
-/

set_option autoImplicit false

/-- The error enum of `src/errors.rs`: its single variant. -/
inductive SangriaError where
  | indexOutOfBounds
  deriving DecidableEq, Repr

/-- Outcome of a fallible Rust computation: an `Ok` value, an `Err` return,
or a panic (raised by an unchecked `Vec` index). -/
inductive RResult (α : Type) where
  | ok : α → RResult α
  | err : SangriaError → RResult α
  | panic : RResult α
  deriving DecidableEq, Repr

/-- Sequencing of `RResult` computations: models Rust's `?` operator and the
propagation of panics. -/
def RResult.bind {α β : Type} : RResult α → (α → RResult β) → RResult β
  | .ok a, f => f a
  | .err e, _ => .err e
  | .panic, _ => .panic

/-- `q_L` selector index (`src/relaxed_plonk.rs`). -/
def LEFT_SELECTOR_INDEX : Nat := 0

/-- `q_R` selector index. -/
def RIGHT_SELECTOR_INDEX : Nat := 1

/-- `q_O` selector index. -/
def OUTPUT_SELECTOR_INDEX : Nat := 2

/-- `q_M` selector index. -/
def MULTIPLICATION_SELECTOR_INDEX : Nat := 3

/-- `q_C` selector index. -/
def CONSTANT_SELECTOR_INDEX : Nat := 4

/-- A PLONK witness: a matrix stored as a list of column vectors
(`PLONKWitness` in `src/relaxed_plonk.rs`). -/
structure PLONKWitness (F : Type) where
  matrix : List (List F)
  deriving DecidableEq, Repr

/-- A PLONK instance: a matrix stored as a list of column vectors
(`PLONKInstance` in `src/relaxed_plonk.rs`). -/
structure PLONKInstance (F : Type) where
  matrix : List (List F)
  deriving DecidableEq, Repr

/-- A PLONK circuit: selector columns plus a copy-constraint permutation
(`PLONKCircuit` in `src/relaxed_plonk.rs`). -/
structure PLONKCircuit (F : Type) where
  selectors : List (List F)
  copy_constraint : List F
  deriving DecidableEq, Repr

/-- The single entry lookup shared by the `column`/`single_selector`
accessors: the source first tests `index > vec.len()` (returning
`Err(IndexOutOfBounds)`) and then evaluates `vec[index]`, which panics when
`index = vec.len()`. -/
def checkedLookup {α : Type} (v : List α) (index : Nat) : RResult α :=
  if index > v.length then .err .indexOutOfBounds
  else
    match v.get? index with
    | some x => .ok x
    | none => .panic

/-- One step of the `row` accessors' per-column closure: test
`row_index > column.len()`, then evaluate `column[row_index]`. -/
def rowEntry {F : Type} (row_index : Nat) (column : List F) : RResult F :=
  if row_index > column.length then .err .indexOutOfBounds
  else
    match column.get? row_index with
    | some x => .ok x
    | none => .panic

/-- The `map(..).collect::<Result<Vec<_>, _>>()` loop of the `row`
accessors: evaluate `rowEntry` on each column in order, stopping at the
first `Err` or panic. -/
def rowCollect {F : Type} (row_index : Nat) : List (List F) → RResult (List F)
  | [] => .ok []
  | column :: rest =>
    match rowEntry row_index column with
    | .err e => .err e
    | .panic => .panic
    | .ok x =>
      match rowCollect row_index rest with
      | .err e => .err e
      | .panic => .panic
      | .ok xs => .ok (x :: xs)

/-- `PLONKInstance::column` (`src/relaxed_plonk.rs`): bounds test
`column_index > self.matrix.len()`, then `self.matrix[column_index].clone()`. -/
def PLONKInstance.column {F : Type} (self : PLONKInstance F) (column_index : Nat) :
    RResult (List F) :=
  checkedLookup self.matrix column_index

/-- `PLONKInstance::row` (`src/relaxed_plonk.rs`). -/
def PLONKInstance.row {F : Type} (self : PLONKInstance F) (row_index : Nat) :
    RResult (List F) :=
  rowCollect row_index self.matrix

/-- `PLONKWitness::column` (`src/relaxed_plonk.rs`). -/
def PLONKWitness.column {F : Type} (self : PLONKWitness F) (column_index : Nat) :
    RResult (List F) :=
  checkedLookup self.matrix column_index

/-- `PLONKWitness::row` (`src/relaxed_plonk.rs`). -/
def PLONKWitness.row {F : Type} (self : PLONKWitness F) (row_index : Nat) :
    RResult (List F) :=
  rowCollect row_index self.matrix

/-- `PLONKCircuit::selectors`. -/
def PLONKCircuit.selectorsOf {F : Type} (self : PLONKCircuit F) : List (List F) :=
  self.selectors

/-- `PLONKCircuit::single_selector` (`src/relaxed_plonk.rs`): bounds test
`selector_index > self.selectors.len()`, then `self.selectors[selector_index]`. -/
def PLONKCircuit.single_selector {F : Type} (self : PLONKCircuit F)
    (selector_index : Nat) : RResult (List F) :=
  checkedLookup self.selectors selector_index

/-- A committed relaxed PLONK instance (`RelaxedPLONKInstance` in
`src/relaxed_plonk.rs`): a PLONK instance, a scaling factor, a commitment to
the slack vector and one commitment per witness column. -/
structure RelaxedPLONKInstance (F C W : Type) where
  plonk_instance : PLONKInstance F
  scaling_factor : F
  slack_commitment : C
  witness_commitments : List W
  deriving DecidableEq, Repr

/-- `RelaxedPLONKInstance::single_witness_commitment`: bounds test
`column_index > self.witness_commitments.len()`, then
`self.witness_commitments[column_index]`. -/
def RelaxedPLONKInstance.single_witness_commitment {F C W : Type}
    (self : RelaxedPLONKInstance F C W) (column_index : Nat) : RResult W :=
  checkedLookup self.witness_commitments column_index

/-- A committed relaxed PLONK witness (`RelaxedPLONKWitness` in
`src/relaxed_plonk.rs`). -/
structure RelaxedPLONKWitness (F : Type) where
  plonk_witness : PLONKWitness F
  slack_vector : List F
  commitment_hidings : List F
  deriving DecidableEq, Repr

/-- `RelaxedPLONKWitness::witness_column` delegates to
`PLONKWitness::column`. -/
def RelaxedPLONKWitness.witness_column {F : Type} (self : RelaxedPLONKWitness F)
    (column_index : Nat) : RResult (List F) :=
  self.plonk_witness.column column_index

/-- `RelaxedPLONKWitness::witness_column_with_rand`: first
`self.plonk_witness.column(column_index)?`, then the unchecked index
`self.commitment_hidings[column_index]`, which panics when out of range. -/
def RelaxedPLONKWitness.witness_column_with_rand {F : Type}
    (self : RelaxedPLONKWitness F) (column_index : Nat) : RResult (List F × F) :=
  match self.plonk_witness.column column_index with
  | .err e => .err e
  | .panic => .panic
  | .ok column =>
    match self.commitment_hidings.get? column_index with
    | some r => .ok (column, r)
    | none => .panic

/-- Modelled from the spec: `Clone for RelaxedPLONKInstance` is left `todo!()`
in `src/relaxed_plonk.rs`; per §3 the type is plain immutable data, so a clone
is a fieldwise copy, i.e. the value itself. -/
def RelaxedPLONKInstance.clone {F C W : Type} (self : RelaxedPLONKInstance F C W) :
    RelaxedPLONKInstance F C W :=
  self

/-- Entrywise scaling of a column matrix by a field element. -/
def matScale {F : Type} [Mul F] (c : F) (m : List (List F)) : List (List F) :=
  m.map (fun column => column.map (fun x => x * c))

/-- Entrywise sum of two column matrices. -/
def matAdd {F : Type} [Add F] (a b : List (List F)) : List (List F) :=
  List.zipWith (List.zipWith (fun x y => x + y)) a b

/-- Modelled from the spec: `Mul<F> for RelaxedPLONKInstance` is left
`todo!()` in `src/relaxed_plonk.rs`; §4.1 specifies scalar multiplication by a
field element `c` as scaling `scaling_factor`, `slack_commitment` and every
`witness_commitments[i]` by `c` through the commitment schemes' homomorphic
structure; the public-input matrix is scaled entrywise. -/
def RelaxedPLONKInstance.mul {F C W : Type} [Mul F] [SMul F C] [SMul F W]
    (self : RelaxedPLONKInstance F C W) (c : F) : RelaxedPLONKInstance F C W :=
  { plonk_instance := ⟨matScale c self.plonk_instance.matrix⟩
    scaling_factor := self.scaling_factor * c
    slack_commitment := c • self.slack_commitment
    witness_commitments := self.witness_commitments.map (fun w => c • w) }

/-- Modelled from the spec: `Add<&Self> for RelaxedPLONKInstance` is left
`todo!()` in `src/relaxed_plonk.rs`; §4.1 specifies addition of two relaxed
instances as adding `scaling_factor`s and adding commitments pointwise via the
group operation; the public-input matrices are added entrywise. -/
def RelaxedPLONKInstance.add {F C W : Type} [Add F] [Add C] [Add W]
    (self rhs : RelaxedPLONKInstance F C W) : RelaxedPLONKInstance F C W :=
  { plonk_instance := ⟨matAdd self.plonk_instance.matrix rhs.plonk_instance.matrix⟩
    scaling_factor := self.scaling_factor + rhs.scaling_factor
    slack_commitment := self.slack_commitment + rhs.slack_commitment
    witness_commitments :=
      List.zipWith (fun x y => x + y) self.witness_commitments rhs.witness_commitments }

/-- Modelled from the spec: a commit key of the external
`HomomorphicCommitmentScheme` (§6) — `setup(rng, len)` "generates a key
supporting commitments to vectors of length exactly `len`".  The key records
the configured length; the remaining key material is abstracted as the
randomness draw that produced it. -/
structure CommitKey where
  supported_length : Nat
  key_material : Nat
  deriving DecidableEq, Repr

/-- Modelled from the spec: `HomomorphicCommitmentScheme::setup` (§6), with
`rng_draw` the randomness consumed from the caller's rng. -/
def hcsSetup (rng_draw : Nat) (len : Nat) : CommitKey :=
  { supported_length := len, key_material := rng_draw }

/-- Modelled from the spec: `HomomorphicCommitmentScheme::commit` (§6) —
"failing when `vector.len()` does not match the key's configured length"
(with the scheme's single error kind, per `src/errors.rs`); otherwise the
commitment is the abstract commitment function `f` of the key material, the
vector and the blinding. -/
def hcsCommit {F C : Type} (f : Nat → List F → F → C) (key : CommitKey)
    (x : List F) (r : F) : RResult C :=
  if x.length = key.supported_length then .ok (f key.key_material x r)
  else .err .indexOutOfBounds

/-- `SetupInfo` (`src/folding_scheme.rs`), with `P` the type of Poseidon
sponge constants (`PoseidonParameters<F>`), kept abstract. -/
structure SetupInfo (P : Type) where
  number_of_public_inputs : Nat
  number_of_gates : Nat
  domain_separator : List Nat
  poseidon_constants : P
  deriving DecidableEq, Repr

/-- `PublicParameters` (`src/folding_scheme.rs`). -/
structure PublicParameters (P : Type) where
  number_of_public_inputs : Nat
  number_of_gates : Nat
  commit_key_witness : CommitKey
  commit_key_selectors_and_slack : CommitKey
  poseidon_constants : P
  domain_separator : List Nat
  deriving DecidableEq, Repr

/-- `VerifierKey` (`src/folding_scheme.rs`): a commitment to the `q_C`
selector and a transcript seed. -/
structure VerifierKey (F C : Type) where
  selector_c_commitment : C
  transcript_seed : F
  deriving DecidableEq, Repr

/-- `ProverKey` (`src/folding_scheme.rs`): exactly the three fields of the
Rust struct — the verifier key, the circuit and the `q_C` commitment
blinding.  (The struct declares no public-parameters field.) -/
structure ProverKey (F C : Type) where
  verifier_key : VerifierKey F C
  circuit : PLONKCircuit F
  selector_c_commit_randomness : F
  deriving DecidableEq, Repr

/-- One absorbed transcript value.  Modelled from the spec: the `Absorb`
implementations are left `todo!()` in the source; §4.3 requires each foldable
type to have a canonical injective transcript encoding, so absorption is
modelled symbolically, one constructor per absorbed type. -/
inductive TItem (F C W P : Type) where
  | bytes : List Nat → TItem F C W P
  | vkey : VerifierKey F C → TItem F C W P
  | inst : RelaxedPLONKInstance F C W → TItem F C W P
  | comm : C → TItem F C W P
  | circ : PLONKCircuit F → TItem F C W P
  | pparams : PublicParameters P → TItem F C W P
  | fieldElem : F → TItem F C W P
  deriving DecidableEq, Repr

/-- The values absorbed by `encode` (`src/folding_scheme.rs` lines 171-176),
in source order: the circuit, the public parameters, the `q_C` blinding. -/
def encodeTranscript {F C W P : Type} (pp : PublicParameters P)
    (circuit : PLONKCircuit F) (randomness_c : F) : List (TItem F C W P) :=
  [.circ circuit, .pparams pp, .fieldElem randomness_c]

/-- The values absorbed by `verifier` (`src/folding_scheme.rs` lines
210-215), in source order: the verifier key, the left instance, the right
instance, the prover message. -/
def verifierTranscript {F C W P : Type} (verifier_key : VerifierKey F C)
    (left_instance right_instance : RelaxedPLONKInstance F C W)
    (prover_message : C) : List (TItem F C W P) :=
  [.vkey verifier_key, .inst left_instance, .inst right_instance,
    .comm prover_message]

/-- `PLONKFoldingScheme::setup` (`src/folding_scheme.rs`): derive the two
commit keys (drawing `r1` then `r2` from the caller's rng) and copy the size
parameters, the domain separator and the Poseidon constants from `info`. -/
def PLONKFoldingScheme.setup {P : Type} (info : SetupInfo P) (r1 r2 : Nat) :
    PublicParameters P :=
  { number_of_gates := info.number_of_gates
    number_of_public_inputs := info.number_of_public_inputs
    commit_key_witness := hcsSetup r1 info.number_of_gates
    commit_key_selectors_and_slack :=
      hcsSetup r2 (info.number_of_gates + info.number_of_public_inputs + 1)
    poseidon_constants := info.poseidon_constants
    domain_separator := info.domain_separator }

/-- `PLONKFoldingScheme::encode` (`src/folding_scheme.rs`): sample the `q_C`
blinding (`randomness_c`, the rng draw), fetch selector 4, commit to it under
the selectors-and-slack key, absorb `(circuit, pp, randomness_c)` into a
fresh sponge, squeeze one native field element as the transcript seed, and
assemble the keys.  `commitS` is the abstract commitment function of the
external slack scheme and `sqN` the abstract
`squeeze_native_field_elements(1)` of the Poseidon sponge. -/
def PLONKFoldingScheme.encode {F C W P : Type} (commitS : Nat → List F → F → C)
    (sqN : P → List (TItem F C W P) → F) (pp : PublicParameters P)
    (circuit : PLONKCircuit F) (randomness_c : F) :
    RResult (ProverKey F C × VerifierKey F C) :=
  match circuit.single_selector CONSTANT_SELECTOR_INDEX with
  | .err e => .err e
  | .panic => .panic
  | .ok c_selector =>
    match hcsCommit commitS pp.commit_key_selectors_and_slack c_selector
        randomness_c with
    | .err e => .err e
    | .panic => .panic
    | .ok commitment_q_c =>
      let transcript_seed :=
        sqN pp.poseidon_constants (encodeTranscript pp circuit randomness_c)
      let vk : VerifierKey F C :=
        { selector_c_commitment := commitment_q_c
          transcript_seed := transcript_seed }
      let pk : ProverKey F C :=
        { verifier_key := vk
          circuit := circuit
          selector_c_commit_randomness := randomness_c }
      .ok (pk, vk)

/-- `PLONKFoldingScheme::verifier` (`src/folding_scheme.rs`): absorb
`(verifier_key, left_instance, right_instance, prover_message)` into a fresh
sponge over `pp.poseidon_constants`, squeeze one field element as the
challenge, and return `right_instance.clone() * challenge + left_instance`.
`sqF` is the abstract `squeeze_field_elements(1)` of the Poseidon sponge. -/
def PLONKFoldingScheme.verifier {F C W P : Type} [Mul F] [Add F] [SMul F C]
    [Add C] [SMul F W] [Add W] (sqF : P → List (TItem F C W P) → F)
    (public_parameters : PublicParameters P) (verifier_key : VerifierKey F C)
    (left_instance right_instance : RelaxedPLONKInstance F C W)
    (prover_message : C) : RResult (RelaxedPLONKInstance F C W) :=
  let challenge : F :=
    sqF public_parameters.poseidon_constants
      (verifierTranscript verifier_key left_instance right_instance
        prover_message)
  let folded_instance :=
    (right_instance.clone.mul challenge).add left_instance
  .ok folded_instance

/-- A concrete squeeze function for evaluations: every squeeze of one field
element yields `5` (the challenge value of the spec's §8 end-to-end
scenario). -/
def sqDemo : Unit → List (TItem (ZMod 97) (ZMod 97) (ZMod 97) Unit) → ZMod 97 :=
  fun _ _ => 5

/-- A concrete commitment function for evaluations over `ZMod 97`. -/
def commDemo : Nat → List (ZMod 97) → ZMod 97 → ZMod 97 :=
  fun k v r => v.sum + r + (k : ZMod 97)

/-- Concrete public parameters for evaluations: 4 gates, 1 public input,
selectors-and-slack key configured for length-1 vectors (the demo circuits
have one gate per selector column). -/
def ppDemo : PublicParameters Unit :=
  { number_of_public_inputs := 1
    number_of_gates := 4
    commit_key_witness := ⟨4, 0⟩
    commit_key_selectors_and_slack := ⟨1, 0⟩
    poseidon_constants := ()
    domain_separator := [7] }

/-- A concrete verifier key for evaluations. -/
def vkDemo : VerifierKey (ZMod 97) (ZMod 97) := ⟨0, 0⟩

/-- A concrete left relaxed instance: trivial scaling factor `1`, slack
commitment `0`, one witness commitment `2`. -/
def instLD : RelaxedPLONKInstance (ZMod 97) (ZMod 97) (ZMod 97) :=
  ⟨⟨[[1]]⟩, 1, 0, [2]⟩

/-- A concrete right relaxed instance: trivial scaling factor `1`, slack
commitment `0`, one witness commitment `3`. -/
def instRD : RelaxedPLONKInstance (ZMod 97) (ZMod 97) (ZMod 97) :=
  ⟨⟨[[1]]⟩, 1, 0, [3]⟩

/-- The instance the modelled verifier folds `instLD` and `instRD` into
under challenge `5`. -/
def foldD : RelaxedPLONKInstance (ZMod 97) (ZMod 97) (ZMod 97) :=
  ⟨⟨[[6]]⟩, 6, 0, [17]⟩

/-- A concrete relaxed witness: one witness column `[5]` with hiding `9`. -/
def witD : RelaxedPLONKWitness (ZMod 97) := ⟨⟨[[5]]⟩, [0], [9]⟩

/-- A circuit with a single selector column. -/
def circ1 : PLONKCircuit (ZMod 97) := ⟨[[1]], [0]⟩

/-- A malformed circuit with only 3 selector columns. -/
def circ3 : PLONKCircuit (ZMod 97) := ⟨[[1], [1], [1]], [0]⟩

/-- A malformed circuit with exactly 4 selector columns. -/
def circ4 : PLONKCircuit (ZMod 97) := ⟨[[1], [1], [1], [1]], [0]⟩

/-- A well-formed circuit with the 5 selector columns `q_L..q_C`, one gate
each; the `q_C` column is `[9]`. -/
def circ5 : PLONKCircuit (ZMod 97) := ⟨[[1], [1], [1], [1], [9]], [0]⟩

/-- C2: boundary behaviour of every Relation-Model accessor, evaluated on
one-column inputs.  At `i < length` each accessor returns `Ok` with the
requested data and at `i > length` it returns `Err(IndexOutOfBounds)`, but at
`i = length` — an out-of-bounds index per the claim — every accessor panics
(the source tests `i > length` and then indexes the vector), contradicting
the claim that `Err(IndexOutOfBounds)` is returned exactly when
`i >= length` and that the accessors never panic. -/
theorem accessor_boundary_eval :
    ((⟨[[(5 : ZMod 97)]]⟩ : PLONKInstance (ZMod 97)).column 0 = .ok [5])
    ∧ ((⟨[[(5 : ZMod 97)]]⟩ : PLONKInstance (ZMod 97)).column 1 = .panic)
    ∧ ((⟨[[(5 : ZMod 97)]]⟩ : PLONKInstance (ZMod 97)).column 2
        = .err .indexOutOfBounds)
    ∧ ((⟨[[(5 : ZMod 97)]]⟩ : PLONKInstance (ZMod 97)).row 0 = .ok [5])
    ∧ ((⟨[[(5 : ZMod 97)]]⟩ : PLONKInstance (ZMod 97)).row 1 = .panic)
    ∧ ((⟨[[(5 : ZMod 97)]]⟩ : PLONKInstance (ZMod 97)).row 2
        = .err .indexOutOfBounds)
    ∧ ((⟨[[(5 : ZMod 97)]]⟩ : PLONKWitness (ZMod 97)).column 0 = .ok [5])
    ∧ ((⟨[[(5 : ZMod 97)]]⟩ : PLONKWitness (ZMod 97)).column 1 = .panic)
    ∧ ((⟨[[(5 : ZMod 97)]]⟩ : PLONKWitness (ZMod 97)).column 2
        = .err .indexOutOfBounds)
    ∧ ((⟨[[(5 : ZMod 97)]]⟩ : PLONKWitness (ZMod 97)).row 0 = .ok [5])
    ∧ ((⟨[[(5 : ZMod 97)]]⟩ : PLONKWitness (ZMod 97)).row 1 = .panic)
    ∧ ((⟨[[(5 : ZMod 97)]]⟩ : PLONKWitness (ZMod 97)).row 2
        = .err .indexOutOfBounds)
    ∧ (circ1.single_selector 0 = .ok [1])
    ∧ (circ1.single_selector 1 = .panic)
    ∧ (circ1.single_selector 2 = .err .indexOutOfBounds)
    ∧ (instLD.single_witness_commitment 0 = .ok 2)
    ∧ (instLD.single_witness_commitment 1 = .panic)
    ∧ (instLD.single_witness_commitment 2 = .err .indexOutOfBounds)
    ∧ (witD.witness_column_with_rand 0 = .ok ([5], 9))
    ∧ (witD.witness_column_with_rand 1 = .panic)
    ∧ (witD.witness_column_with_rand 2 = .err .indexOutOfBounds) := by
  decide

/-- C4: `encode` on a circuit with exactly 4 selector columns.  The claim
says every circuit with fewer than 5 selector columns yields
`Err(IndexOutOfBounds)`; the source's `single_selector` bounds test
`4 > selectors.len()` lets `len = 4` through and the subsequent vector index
panics.  With 3 columns (`4 > 3`) the error is returned, and with the full
5 columns `encode` succeeds. -/
theorem encode_four_selectors_panics_eval :
    (circ4.selectors.length = 4)
    ∧ (PLONKFoldingScheme.encode commDemo sqDemo ppDemo circ4 3 = .panic)
    ∧ (PLONKFoldingScheme.encode commDemo sqDemo ppDemo circ3 3
        = .err .indexOutOfBounds)
    ∧ (PLONKFoldingScheme.encode commDemo sqDemo ppDemo circ5 3
        = .ok (⟨⟨12, 5⟩, circ5, 3⟩, ⟨12, 5⟩)) := by
  decide

/-- C1: the verifier's folded instance, evaluated at concrete inputs with
challenge `r = 5` and prover message `T = 1`.  The scaling factor
(`L.scale + r·R.scale`) and the witness commitments
(`L.wc[i] + r·R.wc[i]`) match the claim, but the slack commitment does not:
the code computes `L.slack + r·R.slack` (here `0`), ignoring the prover
message `T` entirely, while the claim requires
`L.slack + r·T + r²·R.slack` (here `5`). -/
theorem verifier_fold_ignores_cross_term_eval :
    (sqDemo () (verifierTranscript vkDemo instLD instRD 1) = 5)
    ∧ (PLONKFoldingScheme.verifier sqDemo ppDemo vkDemo instLD instRD 1
        = .ok foldD)
    ∧ (foldD.scaling_factor
        = instLD.scaling_factor + 5 * instRD.scaling_factor)
    ∧ (foldD.witness_commitments
        = List.zipWith (fun l r => l + 5 • r) instLD.witness_commitments
            instRD.witness_commitments)
    ∧ (foldD.slack_commitment
        ≠ instLD.slack_commitment + 5 • (1 : ZMod 97)
            + (5 * 5) • instRD.slack_commitment) := by
  decide

/-- C6: the contents of the keys produced by a successful `encode`, fully
evaluated.  The verifier key holds the fresh commitment to selector 4
(`q_C = [9]`, blinding `r_C = 3`, commitment `12`) and the prover key holds
the verifier key, the circuit and the blinding — and nothing else: the
prover key value is exactly `⟨vk, circuit, r_C⟩`, with no public-parameters
component, although both the claim and the struct's own doc comment say the
prover key additionally holds `pp`. -/
theorem encode_key_contents_eval :
    (circ5.single_selector CONSTANT_SELECTOR_INDEX = .ok [9])
    ∧ (hcsCommit commDemo ppDemo.commit_key_selectors_and_slack [9]
        (3 : ZMod 97) = .ok 12)
    ∧ (PLONKFoldingScheme.encode commDemo sqDemo ppDemo circ5 3
        = .ok (⟨⟨12, 5⟩, circ5, 3⟩, ⟨12, 5⟩)) := by
  decide

/-- C3 counterexample: the list of values the verifier absorbs does not
begin with the domain separator — it is
`[verifier_key, left, right, prover_message]`, not
`[domain_separator, verifier_key, left, right, prover_message]` as the claim
states, evaluated at concrete inputs. -/
theorem verifier_transcript_domain_separator_cex :
    verifierTranscript (P := Unit) vkDemo instLD instRD (1 : ZMod 97)
      ≠ TItem.bytes ppDemo.domain_separator
          :: verifierTranscript vkDemo instLD instRD 1 := by
  decide

/-- C3 amended: the verifier derives its challenge by absorbing, in this
exact order, the verifier key, the left instance, the right instance and the
prover message — without the domain separator — and then squeezing exactly
one field element, which it uses as the folding challenge. -/
theorem verifier_transcript_order {F C W P : Type} [Mul F] [Add F] [SMul F C]
    [Add C] [SMul F W] [Add W] (sqF : P → List (TItem F C W P) → F)
    (pp : PublicParameters P) (vk : VerifierKey F C)
    (L R : RelaxedPLONKInstance F C W) (T : C) :
    verifierTranscript (P := P) vk L R T
      = [TItem.vkey vk, TItem.inst L, TItem.inst R, TItem.comm T]
    ∧ PLONKFoldingScheme.verifier sqF pp vk L R T
      = .ok ((R.clone.mul
          (sqF pp.poseidon_constants (verifierTranscript vk L R T))).add L) :=
  ⟨rfl, rfl⟩

/-- Closed instantiation of `verifier_transcript_order` at concrete inputs. -/
theorem verifier_transcript_order_witness :
    verifierTranscript (P := Unit) vkDemo instLD instRD (1 : ZMod 97)
      = [TItem.vkey vkDemo, TItem.inst instLD, TItem.inst instRD,
          TItem.comm 1]
    ∧ PLONKFoldingScheme.verifier sqDemo ppDemo vkDemo instLD instRD 1
      = .ok ((instRD.clone.mul
          (sqDemo ppDemo.poseidon_constants
            (verifierTranscript vkDemo instLD instRD 1))).add instLD) :=
  verifier_transcript_order sqDemo ppDemo vkDemo instLD instRD 1

/-- C5: `setup` copies both size parameters from the input unchanged and
derives a witness commit key for vectors of length `number_of_gates` and a
selectors-and-slack commit key for vectors of length
`number_of_gates + number_of_public_inputs + 1`. -/
theorem setup_commit_key_lengths {P : Type} (info : SetupInfo P)
    (r1 r2 : Nat) :
    ((PLONKFoldingScheme.setup info r1 r2).commit_key_witness.supported_length
      = info.number_of_gates)
    ∧ ((PLONKFoldingScheme.setup info r1
        r2).commit_key_selectors_and_slack.supported_length
      = info.number_of_gates + info.number_of_public_inputs + 1)
    ∧ ((PLONKFoldingScheme.setup info r1 r2).number_of_gates
      = info.number_of_gates)
    ∧ ((PLONKFoldingScheme.setup info r1 r2).number_of_public_inputs
      = info.number_of_public_inputs) :=
  ⟨rfl, rfl, rfl, rfl⟩

/-- Closed instantiation of `setup_commit_key_lengths` at concrete sizes
(4 gates, 1 public input: key lengths 4 and 6). -/
theorem setup_commit_key_lengths_witness :
    ((PLONKFoldingScheme.setup (⟨1, 4, [7], ()⟩ : SetupInfo Unit)
        0 1).commit_key_witness.supported_length = 4)
    ∧ ((PLONKFoldingScheme.setup (⟨1, 4, [7], ()⟩ : SetupInfo Unit)
        0 1).commit_key_selectors_and_slack.supported_length = 6)
    ∧ ((PLONKFoldingScheme.setup (⟨1, 4, [7], ()⟩ : SetupInfo Unit)
        0 1).number_of_gates = 4)
    ∧ ((PLONKFoldingScheme.setup (⟨1, 4, [7], ()⟩ : SetupInfo Unit)
        0 1).number_of_public_inputs = 1) :=
  setup_commit_key_lengths (⟨1, 4, [7], ()⟩ : SetupInfo Unit) 0 1

/-- Entrywise matrix addition is commutative. -/
theorem matAdd_comm {F : Type} [AddCommGroup F] (a b : List (List F)) :
    matAdd a b = matAdd b a :=
  List.zipWith_comm_of_comm _
    (fun x y => List.zipWith_comm_of_comm _ add_comm x y) a b

/-- C7: relaxed-instance addition is commutative — scaling factors and
public-input entries commute in the field, slack and witness commitments
commute in the commitment groups. -/
theorem relaxed_instance_add_comm {F C W : Type} [AddCommGroup F]
    [AddCommGroup C] [AddCommGroup W] (A B : RelaxedPLONKInstance F C W) :
    A.add B = B.add A := by
  obtain ⟨⟨ma⟩, sa, ca, wa⟩ := A
  obtain ⟨⟨mb⟩, sb, cb, wb⟩ := B
  simp only [RelaxedPLONKInstance.add, RelaxedPLONKInstance.mk.injEq,
    PLONKInstance.mk.injEq]
  exact ⟨matAdd_comm ma mb, add_comm sa sb, add_comm ca cb,
    List.zipWith_comm_of_comm _ add_comm wa wb⟩

/-- Closed instantiation of `relaxed_instance_add_comm` at concrete
instances over `ZMod 97`. -/
theorem relaxed_instance_add_comm_witness :
    instLD.add instRD = instRD.add instLD :=
  relaxed_instance_add_comm instLD instRD

/-- C8: the verifier is a deterministic pure function of its explicit
arguments — two runs on equal public parameters, verifier key, left
instance, right instance and prover message (over the same sponge) return
equal results.  The embedding needs no state or randomness input for
`verifier` (unlike `setup`/`encode`, which consume rng draws), and the Rust
function takes every argument by shared reference, so the inputs are left
unchanged. -/
theorem verifier_deterministic {F C W P : Type} [Mul F] [Add F] [SMul F C]
    [Add C] [SMul F W] [Add W] (sqF : P → List (TItem F C W P) → F)
    (pp1 pp2 : PublicParameters P) (vk1 vk2 : VerifierKey F C)
    (L1 L2 R1 R2 : RelaxedPLONKInstance F C W) (T1 T2 : C)
    (hpp : pp1 = pp2) (hvk : vk1 = vk2) (hL : L1 = L2) (hR : R1 = R2)
    (hT : T1 = T2) :
    PLONKFoldingScheme.verifier sqF pp1 vk1 L1 R1 T1
      = PLONKFoldingScheme.verifier sqF pp2 vk2 L2 R2 T2 := by
  subst hpp hvk hL hR hT
  rfl

/-- Closed instantiation of `verifier_deterministic` at concrete inputs. -/
theorem verifier_deterministic_witness :
    PLONKFoldingScheme.verifier sqDemo ppDemo vkDemo instLD instRD 1
      = PLONKFoldingScheme.verifier sqDemo ppDemo vkDemo instLD instRD 1 :=
  verifier_deterministic sqDemo ppDemo ppDemo vkDemo vkDemo instLD instLD
    instRD instRD 1 1 rfl rfl rfl rfl rfl

/-- C9: the error enum has the single value `IndexOutOfBounds`, and every
fallible operation of the core — the Relation-Model accessors, the external
commitment, `encode` and `verifier` — can only return that error. -/
theorem single_error_kind {F C W P : Type} [Mul F] [Add F] [SMul F C] [Add C]
    [SMul F W] [Add W] :
    (∀ e : SangriaError, e = .indexOutOfBounds)
    ∧ (∀ (M : PLONKInstance F) (i : Nat) (e : SangriaError),
        M.column i = .err e → e = .indexOutOfBounds)
    ∧ (∀ (M : PLONKInstance F) (i : Nat) (e : SangriaError),
        M.row i = .err e → e = .indexOutOfBounds)
    ∧ (∀ (M : PLONKWitness F) (i : Nat) (e : SangriaError),
        M.column i = .err e → e = .indexOutOfBounds)
    ∧ (∀ (M : PLONKWitness F) (i : Nat) (e : SangriaError),
        M.row i = .err e → e = .indexOutOfBounds)
    ∧ (∀ (circuit : PLONKCircuit F) (i : Nat) (e : SangriaError),
        circuit.single_selector i = .err e → e = .indexOutOfBounds)
    ∧ (∀ (A : RelaxedPLONKInstance F C W) (i : Nat) (e : SangriaError),
        A.single_witness_commitment i = .err e → e = .indexOutOfBounds)
    ∧ (∀ (witness : RelaxedPLONKWitness F) (i : Nat) (e : SangriaError),
        witness.witness_column_with_rand i = .err e → e = .indexOutOfBounds)
    ∧ (∀ (f : Nat → List F → F → C) (key : CommitKey) (x : List F) (r : F)
        (e : SangriaError), hcsCommit f key x r = .err e
          → e = .indexOutOfBounds)
    ∧ (∀ (commitS : Nat → List F → F → C)
        (sqN : P → List (TItem F C W P) → F) (pp : PublicParameters P)
        (circuit : PLONKCircuit F) (r : F) (e : SangriaError),
        PLONKFoldingScheme.encode commitS sqN pp circuit r = .err e
          → e = .indexOutOfBounds)
    ∧ (∀ (sqF : P → List (TItem F C W P) → F) (pp : PublicParameters P)
        (vk : VerifierKey F C) (L R : RelaxedPLONKInstance F C W) (T : C)
        (e : SangriaError),
        PLONKFoldingScheme.verifier sqF pp vk L R T = .err e
          → e = .indexOutOfBounds) := by
  have h : ∀ e : SangriaError, e = .indexOutOfBounds := fun e => by
    cases e
    rfl
  exact ⟨h, fun _ _ e _ => h e, fun _ _ e _ => h e, fun _ _ e _ => h e,
    fun _ _ e _ => h e, fun _ _ e _ => h e, fun _ _ e _ => h e,
    fun _ _ e _ => h e, fun _ _ _ _ e _ => h e, fun _ _ _ _ _ e _ => h e,
    fun _ _ _ _ _ _ e _ => h e⟩

/-- Closed instantiation of `single_error_kind`: the error returned by an
out-of-range column access and by `encode` on a 3-selector circuit is
`IndexOutOfBounds`. -/
theorem single_error_kind_witness :
    SangriaError.indexOutOfBounds = .indexOutOfBounds
    ∧ SangriaError.indexOutOfBounds = .indexOutOfBounds := by
  constructor
  · exact (single_error_kind (F := ZMod 97) (C := ZMod 97) (W := ZMod 97)
      (P := Unit)).2.1 ⟨[]⟩ 1 SangriaError.indexOutOfBounds (by decide)
  · exact (single_error_kind (F := ZMod 97) (C := ZMod 97) (W := ZMod 97)
      (P := Unit)).2.2.2.2.2.2.2.2.2.1 commDemo sqDemo ppDemo circ3 3
      SangriaError.indexOutOfBounds (by decide)

/-- Inversion of a successful `encode`: the returned verifier key's
transcript seed is the squeeze of the sponge that absorbed
`(circuit, pp, randomness_c)`, and the prover key holds that verifier key,
the circuit and the blinding. -/
theorem encode_ok_seed {F C W P : Type} (commitS : Nat → List F → F → C)
    (sqN : P → List (TItem F C W P) → F) (pp : PublicParameters P)
    (circuit : PLONKCircuit F) (r : F) (pk : ProverKey F C)
    (vk : VerifierKey F C)
    (h : PLONKFoldingScheme.encode commitS sqN pp circuit r = .ok (pk, vk)) :
    vk.transcript_seed
      = sqN pp.poseidon_constants (encodeTranscript pp circuit r)
    ∧ pk.verifier_key = vk
    ∧ pk.circuit = circuit
    ∧ pk.selector_c_commit_randomness = r := by
  unfold PLONKFoldingScheme.encode at h
  split at h
  · cases h
  · cases h
  · split at h
    · cases h
    · cases h
    · simp only [RResult.ok.injEq, Prod.mk.injEq] at h
      obtain ⟨hpk, hvk⟩ := h
      subst hvk
      subst hpk
      exact ⟨rfl, rfl, rfl, rfl⟩

/-- C10: a successful `encode` computes the public verifier key's
`transcript_seed` by absorbing the circuit, the public parameters and the
secret blinding `r_C` (in that order) into a fresh sponge and squeezing one
native field element, and sets `pk.verifier_key` to the returned verifier
key; two runs differing only in `r_C` feed different absorption lists to the
sponge (the claim's "different seed with overwhelming probability" over the
concrete Poseidon permutation, which is outside this model). -/
theorem encode_seed_depends_on_blinding {F C W P : Type}
    (commitS : Nat → List F → F → C) (sqN : P → List (TItem F C W P) → F)
    (pp : PublicParameters P) (circuit : PLONKCircuit F) (r1 r2 : F)
    (pk1 pk2 : ProverKey F C) (vk1 vk2 : VerifierKey F C)
    (h1 : PLONKFoldingScheme.encode commitS sqN pp circuit r1 = .ok (pk1, vk1))
    (h2 : PLONKFoldingScheme.encode commitS sqN pp circuit r2 = .ok (pk2, vk2))
    (hr : r1 ≠ r2) :
    vk1.transcript_seed
      = sqN pp.poseidon_constants (encodeTranscript pp circuit r1)
    ∧ vk2.transcript_seed
      = sqN pp.poseidon_constants (encodeTranscript pp circuit r2)
    ∧ pk1.verifier_key = vk1
    ∧ encodeTranscript (C := C) (W := W) pp circuit r1
      ≠ encodeTranscript pp circuit r2 := by
  obtain ⟨hseed1, hpkvk1, -, -⟩ :=
    encode_ok_seed commitS sqN pp circuit r1 pk1 vk1 h1
  obtain ⟨hseed2, -, -, -⟩ :=
    encode_ok_seed commitS sqN pp circuit r2 pk2 vk2 h2
  refine ⟨hseed1, hseed2, hpkvk1, fun hcon => hr ?_⟩
  simp only [encodeTranscript, List.cons.injEq, TItem.fieldElem.injEq] at hcon
  exact hcon.2.2.1

/-- Closed instantiation of `encode_seed_depends_on_blinding` at two encode
runs over `ZMod 97` that differ only in the sampled blinding (`3` vs `4`). -/
theorem encode_seed_depends_on_blinding_witness :
    (VerifierKey.transcript_seed (F := ZMod 97) (C := ZMod 97) ⟨12, 5⟩
      = sqDemo ppDemo.poseidon_constants (encodeTranscript ppDemo circ5 3))
    ∧ (VerifierKey.transcript_seed (F := ZMod 97) (C := ZMod 97) ⟨13, 5⟩
      = sqDemo ppDemo.poseidon_constants (encodeTranscript ppDemo circ5 4))
    ∧ (ProverKey.verifier_key
        (⟨⟨12, 5⟩, circ5, 3⟩ : ProverKey (ZMod 97) (ZMod 97)) = ⟨12, 5⟩)
    ∧ encodeTranscript (C := ZMod 97) (W := ZMod 97) ppDemo circ5
        (3 : ZMod 97) ≠ encodeTranscript ppDemo circ5 4 :=
  encode_seed_depends_on_blinding commDemo sqDemo ppDemo circ5 3 4
    ⟨⟨12, 5⟩, circ5, 3⟩ ⟨⟨13, 5⟩, circ5, 4⟩ ⟨12, 5⟩ ⟨13, 5⟩ (by decide)
    (by decide) (by decide)
